import Mathlib

/-
Verification development for the `ambient-network-chill-hours` repository.

The repository has two algorithmic components:
  * `AmbientWeatherAPI` (src/services/ambientApi.ts): a backward-chunked,
    rate-limited range fetch over a paginated weather API, with a retry /
    exponential-backoff sub-protocol for single page requests.
  * `ChillHourCalculator` (src/services/chillHours.ts): an hour-bucketing
    aggregator turning timestamped temperature samples into a chill-hour
    report, optionally restricted to a computed season window.

The definitions below are a shallow embedding of those two files.
JavaScript numbers are embedded as `Int` (epoch-millisecond timestamps,
HTTP statuses, counters) and `ℚ` (temperatures and ratios); the external
HTTP data source is a parameter (`getData` / `results`) supplying the
response of each call, and the number of calls issued is returned
explicitly so that request-count properties can be stated.
-/

/-- `WeatherData` from src/types: one sample, `dateutc` an epoch-millisecond
timestamp and `tempf` a temperature in °F. -/
structure WeatherData where
  dateutc : Int
  tempf : ℚ
deriving DecidableEq

namespace AmbientWeatherAPI

/-- `DEFAULT_READINGS_PER_CHUNK` (500). -/
def DEFAULT_READINGS_PER_CHUNK : Nat := 500

/-- `MAX_FETCH_OPERATIONS`: safety limit of the chunked fetch loop (100). -/
def MAX_FETCH_OPERATIONS : Nat := 100

/-- `MILLISECONDS_PER_DAY`. -/
def MILLISECONDS_PER_DAY : Int := 24 * 60 * 60 * 1000

/-- `HTTP_RATE_LIMIT_STATUS` (429). -/
def HTTP_RATE_LIMIT_STATUS : Int := 429

/-- `HTTP_SERVER_ERROR_MIN` (500). -/
def HTTP_SERVER_ERROR_MIN : Int := 500

/-- `HTTP_SERVER_ERROR_MAX` (599). -/
def HTTP_SERVER_ERROR_MAX : Int := 599

/-- `DEFAULT_MAX_RETRIES` (3). -/
def DEFAULT_MAX_RETRIES : Nat := 3

/-- `ONE_SECOND_MS` (1000). -/
def ONE_SECOND_MS : Int := 1000

/-- The part of an axios error observed by `isRetryableError`: an error may
carry a `response` with an HTTP `status`. -/
structure ErrorResponse where
  status : Int
deriving DecidableEq

/-- An error thrown by a page request; `response = none` models an error
with no HTTP response attached (network failure etc.). -/
structure RequestError where
  response : Option ErrorResponse
deriving DecidableEq

/-- `isRetryableError`: true iff the error has a response whose status is the
rate-limit status 429 or a server-error status in [500, 599]. -/
def isRetryableError (error : RequestError) : Bool :=
  match error.response with
  | some r =>
      r.status == HTTP_RATE_LIMIT_STATUS ||
        (decide (HTTP_SERVER_ERROR_MIN ≤ r.status) &&
         decide (r.status ≤ HTTP_SERVER_ERROR_MAX))
  | none => false

/-- `calculateBackoffDelay`: `rateLimitDelay * 2 ^ (retryCount - 1)`. -/
def calculateBackoffDelay (rateLimitDelay : Nat) (retryCount : Nat) : Nat :=
  rateLimitDelay * 2 ^ (retryCount - 1)

/-- The `while (true)` retry loop of `makeRequest`.  `results n` is the
outcome of the `(n+1)`-st attempt of this request; `retries` is the number of
retries performed so far (the loop variable of the source); `fuel` bounds the
remaining loop iterations (the source loop terminates because `retries` grows
to `maxRetries`; here `fuel = maxRetries - retries` makes that explicit).
Returns the final outcome together with the list of backoff delays waited,
in order. -/
def makeRequestAux {α : Type} (results : Nat → Except RequestError α)
    (rateLimitDelay : Nat) (maxRetries : Nat) :
    Nat → Nat → Except RequestError α × List Nat
  | retries, fuel =>
    match results retries with
    | Except.ok a => (Except.ok a, [])
    | Except.error e =>
      if isRetryableError e then
        if maxRetries ≤ retries then (Except.error e, [])
        else
          match fuel with
          | 0 => (Except.error e, [])
          | fuel' + 1 =>
            let retries' := retries + 1
            let backoffDelay := calculateBackoffDelay rateLimitDelay retries'
            let rest := makeRequestAux results rateLimitDelay maxRetries retries' fuel'
            (rest.1, backoffDelay :: rest.2)
      else (Except.error e, [])

/-- `makeRequest`: performs the request with retry capability; starts with
`retries = 0`. -/
def makeRequest {α : Type} (results : Nat → Except RequestError α)
    (rateLimitDelay : Nat) (maxRetries : Nat) :
    Except RequestError α × List Nat :=
  makeRequestAux results rateLimitDelay maxRetries 0 maxRetries

/-- The timestamp part of `findDateBounds`: `Math.min` over the chunk's
`dateutc` values (the source only evaluates it on non-empty chunks). -/
def findEarliestTimestamp (chunkData : List WeatherData) : Int :=
  match chunkData.map (fun d => d.dateutc) with
  | [] => 0
  | t :: ts => ts.foldl min t

/-- `processChunk`: appends the chunk to the accumulator and decides whether
to continue; the returned triple is (new accumulator, shouldContinue,
nextEndDate).  When stopping, the source fills `nextEndDate` with an unused
placeholder (`new Date()`); here `0`. -/
def processChunk (chunkData : List WeatherData) (startDate : Int)
    (allData : List WeatherData) : List WeatherData × Bool × Int :=
  let earliestTimestamp := findEarliestTimestamp chunkData
  let allData' := allData ++ chunkData
  if earliestTimestamp ≤ startDate then (allData', false, 0)
  else (allData', true, earliestTimestamp - ONE_SECOND_MS)

/-- The `while` loop of `fetchDataInChunks`.  `getData n e` is the page the
external source returns to the `(n+1)`-st page request of this fetch, issued
with end cursor `e` (the source's `getDeviceData` call).  `fuel` is
`MAX_FETCH_OPERATIONS - fetchCount`, making the loop guard
`fetchCount < MAX_FETCH_OPERATIONS` structural.  Returns the accumulated
data and the number of page requests issued. -/
def fetchDataInChunksAux (getData : Nat → Int → List WeatherData)
    (startDate : Int) :
    Nat → Int → List WeatherData → Nat → List WeatherData × Nat
  | 0, _, allData, fetchCount => (allData, fetchCount)
  | fuel + 1, currentEnd, allData, fetchCount =>
    let chunkData := getData fetchCount currentEnd
    let fetchCount' := fetchCount + 1
    if chunkData.isEmpty then (allData, fetchCount')
    else
      let r := processChunk chunkData startDate allData
      if r.2.1 then
        fetchDataInChunksAux getData startDate fuel r.2.2 r.1 fetchCount'
      else (r.1, fetchCount')

/-- `fetchDataInChunks`: fetches backward in time from `endDate` until the
start date is reached, a page is empty, or the safety cap is hit. -/
def fetchDataInChunks (getData : Nat → Int → List WeatherData)
    (startDate endDate : Int) : List WeatherData × Nat :=
  fetchDataInChunksAux getData startDate MAX_FETCH_OPERATIONS endDate [] 0

/-- `filterDataByDateRange`: keeps entries with
`startDate ≤ dateutc ≤ endDate`. -/
def filterDataByDateRange (data : List WeatherData) (startDate endDate : Int) :
    List WeatherData :=
  data.filter fun entry =>
    decide (startDate ≤ entry.dateutc) && decide (entry.dateutc ≤ endDate)

/-- `sortDataChronologically` (ambientApi.ts): `[...data].sort` by ascending
timestamp; JavaScript's `Array.prototype.sort` is a stable sort, embedded
by the stable `List.insertionSort`. -/
def sortDataChronologically (data : List WeatherData) : List WeatherData :=
  List.insertionSort (fun a b => a.dateutc ≤ b.dateutc) data

/-- `processRetrievedData`: filter to the requested window, then sort. -/
def processRetrievedData (allData : List WeatherData)
    (startDate endDate : Int) : List WeatherData :=
  sortDataChronologically (filterDataByDateRange allData startDate endDate)

/-- `calculateDaysBetweenDates`: `Math.ceil((endDate - startDate) / day)`. -/
def calculateDaysBetweenDates (startDate endDate : Int) : Int :=
  -((startDate - endDate).fdiv MILLISECONDS_PER_DAY)

/-- `logDateRangeInfo`: computes `daysToFetch = min(totalDaysDiff, maxDays)`
and prints it; the returned value is the logged day count, used nowhere
else. -/
def logDateRangeInfo (startDate endDate : Int) (maxDays : Int) : Int :=
  min (calculateDaysBetweenDates startDate endDate) maxDays

/-- `getDeviceDataForDateRange`: logs the range, fetches in chunks, then
filters and sorts.  `maxDays` (source default 365) flows only into the
logging call.  Returns the processed data and the number of page requests
issued. -/
def getDeviceDataForDateRange (getData : Nat → Int → List WeatherData)
    (startDate endDate : Int) (maxDays : Int) : List WeatherData × Nat :=
  let _daysToFetch := logDateRangeInfo startDate endDate maxDays
  let fetched := fetchDataInChunks getData startDate endDate
  (processRetrievedData fetched.1 startDate endDate, fetched.2)

end AmbientWeatherAPI

namespace ChillHourCalculator

/-- `MILLISECONDS_PER_DAY` (chillHours.ts). -/
def MILLISECONDS_PER_DAY : Int := 24 * 60 * 60 * 1000

/-- `MIN_COVERAGE_PERCENT` (80). -/
def MIN_COVERAGE_PERCENT : Int := 80

/-- `DECEMBER_MONTH`: 0-based month index of December (11). -/
def DECEMBER_MONTH : Int := 11

/-- Gregorian leap-year test (used to embed JavaScript `Date` calendar
arithmetic). -/
def isLeapYear (y : Int) : Bool :=
  (y % 4 == 0 && y % 100 != 0) || y % 400 == 0

/-- Number of days of the (1-based) month `m` of year `y`. -/
def daysInMonth (y m : Int) : Int :=
  if m = 2 then (if isLeapYear y then 29 else 28)
  else if m = 4 ∨ m = 6 ∨ m = 9 ∨ m = 11 then 30
  else 31

/-- Civil date (1-based year, month, day) of the day `z` days after
1970-01-01: the standard days-to-civil conversion, embedding what
JavaScript's `Date` getters compute from an epoch timestamp. -/
def civilFromDays (z0 : Int) : Int × Int × Int :=
  let z := z0 + 719468
  let era := z.fdiv 146097
  let doe := z.emod 146097
  let yoe := (doe - doe.fdiv 1460 + doe.fdiv 36524 - doe.fdiv 146096).fdiv 365
  let y := yoe + era * 400
  let doy := doe - (365 * yoe + yoe.fdiv 4 - yoe.fdiv 100)
  let mp := (5 * doy + 2).fdiv 153
  let d := doy - (153 * mp + 2).fdiv 5 + 1
  let m := mp + (if mp < 10 then 3 else -9)
  (y + (if m ≤ 2 then 1 else 0), m, d)

/-- `createHourKey`: the string
`getFullYear() + "-" + (getMonth()+1) + "-" + getDate() + "-" + getHours()`
of `new Date(timestamp)`, in a UTC execution environment (the source uses
the process-local timezone; this embedding fixes it to UTC). -/
def createHourKey (timestamp : Int) : String :=
  let c := civilFromDays (timestamp.fdiv MILLISECONDS_PER_DAY)
  let hours := (timestamp.fdiv 3600000).emod 24
  toString c.1 ++ "-" ++ toString c.2.1 ++ "-" ++ toString c.2.2 ++ "-" ++
    toString hours

/-- The per-hour accumulator record `{ temps: number[], inRange: number }`. -/
structure HourBucket where
  temps : List ℚ
  inRange : Nat
deriving DecidableEq

/-- `isTemperatureInChillRange`: `minTemp ≤ tempF ≤ maxTemp` (inclusive). -/
def isTemperatureInChillRange (minTemp maxTemp : ℚ) (tempF : ℚ) : Bool :=
  decide (minTemp ≤ tempF) && decide (tempF ≤ maxTemp)

/-- The body of the `for` loop of `groupReadingsByHour` acting on one
bucket: push the temperature and bump `inRange` when the reading is in the
chill range. -/
def bucketPush (minTemp maxTemp : ℚ) (entry : WeatherData)
    (b : HourBucket) : HourBucket :=
  { temps := b.temps ++ [entry.tempf],
    inRange :=
      b.inRange +
        (if isTemperatureInChillRange minTemp maxTemp entry.tempf then 1
         else 0) }

/-- One iteration of the `for` loop of `groupReadingsByHour`: ensure the
entry for this sample's hour key exists (a JavaScript `Map` appends new keys
in insertion order), then update that bucket with `bucketPush`. -/
def insertSample (minTemp maxTemp : ℚ)
    (hourlyData : List (String × HourBucket)) (entry : WeatherData) :
    List (String × HourBucket) :=
  let hourKey := createHourKey entry.dateutc
  if hourlyData.any (fun e => e.1 == hourKey) then
    hourlyData.map fun e =>
      if e.1 == hourKey then (e.1, bucketPush minTemp maxTemp entry e.2) else e
  else
    hourlyData ++
      [(hourKey, bucketPush minTemp maxTemp entry { temps := [], inRange := 0 })]

/-- `groupReadingsByHour`: fold the samples into the insertion-ordered hour
map. -/
def groupReadingsByHour (minTemp maxTemp : ℚ) (sortedData : List WeatherData) :
    List (String × HourBucket) :=
  sortedData.foldl (insertSample minTemp maxTemp) []

/-- `isChillHour`:
`hourData.temps.length > 0 && hourData.inRange / hourData.temps.length >= 0.5`. -/
def isChillHour (hourData : HourBucket) : Bool :=
  decide (0 < hourData.temps.length) &&
    decide ((1 : ℚ) / 2 ≤ (hourData.inRange : ℚ) / (hourData.temps.length : ℚ))

/-- `countChillHours`: `totalHours` is the number of map entries, and
`chillHours` the number of entries classified by `isChillHour`; returned as
the pair (totalHours, chillHours). -/
def countChillHours (hourlyData : List (String × HourBucket)) : Nat × Nat :=
  (hourlyData.length, hourlyData.countP fun e => isChillHour e.2)

/-- `ChillHourReport` from src/types. -/
structure ChillHourReport where
  totalHours : Nat
  chillHours : Nat
  date : String
  percentChillHours : ℚ
deriving DecidableEq

/-- Deterministic rendering of a timestamp, embedding
`new Date(t).toLocaleDateString()` (locale-dependent in the source, but a
pure function of the timestamp in any fixed environment). -/
def formatDate (t : Int) : String := toString t

/-- `createEmptyReport`. -/
def createEmptyReport (message : String) : ChillHourReport :=
  { totalHours := 0, chillHours := 0, date := message, percentChillHours := 0 }

/-- `createReport`: reads `sortedData[0]` and
`sortedData[sortedData.length - 1]` (the source only calls it on non-empty
data; `headD` / `getLastD` supply a dummy for the impossible empty case) and
computes `percentChillHours = totalHours > 0 ? (chillHours / totalHours) * 100 : 0`. -/
def createReport (sortedData : List WeatherData)
    (totalHours chillHours : Nat) : ChillHourReport :=
  let startDate := (sortedData.headD ⟨0, 0⟩).dateutc
  let endDate := (sortedData.getLastD ⟨0, 0⟩).dateutc
  { totalHours := totalHours,
    chillHours := chillHours,
    date := formatDate startDate ++ " to " ++ formatDate endDate,
    percentChillHours :=
      if 0 < totalHours then ((chillHours : ℚ) / (totalHours : ℚ)) * 100
      else 0 }

/-- `sortDataChronologically` (chillHours.ts): `[...data].sort((a, b) =>
a.dateutc - b.dateutc)`; same embedding as the API-side sort. -/
def sortDataChronologically (data : List WeatherData) : List WeatherData :=
  List.insertionSort (fun a b => a.dateutc ≤ b.dateutc) data

/-- `calculateChillHours`: sort, return an empty report on no data, else
group by hour, count, and build the report. -/
def calculateChillHours (minTemp maxTemp : ℚ) (data : List WeatherData) :
    ChillHourReport :=
  let sortedData := sortDataChronologically data
  if sortedData.isEmpty then createEmptyReport "No data available"
  else
    let hourlyData := groupReadingsByHour minTemp maxTemp sortedData
    let counts := countChillHours hourlyData
    createReport sortedData counts.1 counts.2

/-- A calendar date as JavaScript `new Date(year, monthIndex, day)` denotes
it; `month` is 1-based here. -/
structure SimpleDate where
  year : Int
  month : Int
  day : Int
deriving DecidableEq

/-- Embeds `new Date(y, monthIndex, day)` for the argument shapes the source
uses: a valid day `≥ 1` of the (0-based) month `monthIndex` in `0..11`, or
`day = 0` denoting the last day of the preceding month. -/
def jsMkDate (y monthIndex day : Int) : SimpleDate :=
  if 1 ≤ day then ⟨y, monthIndex + 1, day⟩
  else if monthIndex = 0 then ⟨y - 1, 12, 31⟩
  else ⟨y, monthIndex, daysInMonth y monthIndex⟩

/-- `determineSeasonDates` for an explicitly supplied target year (the
source defaults a missing `year` to the current year before this
computation). -/
def determineSeasonDates (seasonStartMonth : Int) (year : Int) :
    SimpleDate × SimpleDate :=
  if seasonStartMonth ≤ 6 then
    (jsMkDate year (seasonStartMonth - 1) 1, jsMkDate year DECEMBER_MONTH 31)
  else
    (jsMkDate (year - 1) (seasonStartMonth - 1) 1,
     jsMkDate year (seasonStartMonth - 1) 0)

/-- Days from 1970-01-01 to the civil date (y, m, d): inverse of
`civilFromDays`, used to embed comparisons between `Date` objects built from
components and `Date` objects built from epoch timestamps. -/
def daysFromCivil (y m d : Int) : Int :=
  let y' := y - (if m ≤ 2 then 1 else 0)
  let era := y'.fdiv 400
  let yoe := y' - era * 400
  let mp := m + (if 2 < m then -3 else 9)
  let doy := (153 * mp + 2).fdiv 5 + d - 1
  let doe := yoe * 365 + yoe.fdiv 4 - yoe.fdiv 100 + doy
  era * 146097 + doe - 719468

/-- Epoch milliseconds of midnight (UTC environment) of a `SimpleDate`. -/
def dateToMillis (dt : SimpleDate) : Int :=
  daysFromCivil dt.year dt.month dt.day * MILLISECONDS_PER_DAY

/-- Rendering of a `SimpleDate`, embedding `toLocaleDateString` on a
component-built `Date` (deterministic in a fixed environment). -/
def formatSimpleDate (dt : SimpleDate) : String :=
  toString dt.year ++ "-" ++ toString dt.month ++ "-" ++ toString dt.day

/-- `filterDataForSeason`: keeps entries with
`seasonStart ≤ new Date(entry.dateutc) ≤ seasonEnd` (date comparison is by
time value). -/
def filterDataForSeason (allData : List WeatherData)
    (seasonStart seasonEnd : SimpleDate) : List WeatherData :=
  allData.filter fun entry =>
    decide (dateToMillis seasonStart ≤ entry.dateutc) &&
      decide (entry.dateutc ≤ dateToMillis seasonEnd)

/-- `calculateSeasonChillHours`: compute the season window, filter, return a
labelled empty report when nothing remains, else delegate to
`calculateChillHours` (the logging helpers have no effect on the result). -/
def calculateSeasonChillHours (minTemp maxTemp : ℚ)
    (allData : List WeatherData) (seasonStartMonth : Int) (year : Int) :
    ChillHourReport :=
  let sd := determineSeasonDates seasonStartMonth year
  let seasonData := filterDataForSeason allData sd.1 sd.2
  if seasonData.isEmpty then
    createEmptyReport
      (formatSimpleDate sd.1 ++ " to " ++ formatSimpleDate sd.2 ++ " (no data)")
  else calculateChillHours minTemp maxTemp seasonData

end ChillHourCalculator

/-
A small array-store semantics used to settle the frame claim (C10): arrays
are mutable JavaScript objects, so the aggregator entry points are re-run
below against an explicit store of array buffers.  A reference is an index
into the store; `Array.prototype.sort` mutates its receiver in place, the
spread `[...data]` allocates a fresh copy, and `Array.prototype.filter`
allocates a fresh result.  The embedding of each source function performs
exactly the allocations and writes its JavaScript counterpart performs.
-/

namespace JsHeap

/-- The store: one buffer of samples per allocated array reference. -/
abbrev Store := List (List WeatherData)

/-- Read the buffer behind reference `r`. -/
def readArr (st : Store) (r : Nat) : List WeatherData := st.getD r []

/-- Overwrite the buffer behind reference `r`. -/
def writeArr (st : Store) (r : Nat) (v : List WeatherData) : Store := st.set r v

/-- Allocate a fresh array holding `v`; returns the new store and the new
reference. -/
def allocArr (st : Store) (v : List WeatherData) : Store × Nat :=
  (st ++ [v], st.length)

/-- `[...data]`: allocate a shallow copy of `r`. -/
def spreadCopy (st : Store) (r : Nat) : Store × Nat := allocArr st (readArr st r)

/-- `arr.sort((a, b) => a.dateutc - b.dateutc)`: sorts the receiver in place
and returns it. -/
def sortInPlace (st : Store) (r : Nat) : Store × Nat :=
  (writeArr st r
    (List.insertionSort (fun a b => a.dateutc ≤ b.dateutc) (readArr st r)), r)

/-- `arr.filter(p)`: allocates the filtered result, leaving `r` alone. -/
def filterArr (st : Store) (r : Nat) (p : WeatherData → Bool) : Store × Nat :=
  allocArr st ((readArr st r).filter p)

/-- `sortDataChronologically` under the store semantics:
`[...data].sort(...)` — copy, then sort the copy in place. -/
def sortDataChronologicallySt (st : Store) (r : Nat) : Store × Nat :=
  let c := spreadCopy st r
  sortInPlace c.1 c.2

/-- `calculateChillHours` under the store semantics: after the copying sort,
the remaining computation only reads the sorted copy. -/
def calculateChillHoursSt (minTemp maxTemp : ℚ) (st : Store) (r : Nat) :
    ChillHourCalculator.ChillHourReport × Store :=
  let s := sortDataChronologicallySt st r
  let sortedData := readArr s.1 s.2
  if sortedData.isEmpty then
    (ChillHourCalculator.createEmptyReport "No data available", s.1)
  else
    let hourlyData := ChillHourCalculator.groupReadingsByHour minTemp maxTemp sortedData
    let counts := ChillHourCalculator.countChillHours hourlyData
    (ChillHourCalculator.createReport sortedData counts.1 counts.2, s.1)

/-- `filterDataForSeason` under the store semantics: a single `filter`
allocation. -/
def filterDataForSeasonSt (st : Store) (r : Nat)
    (seasonStart seasonEnd : ChillHourCalculator.SimpleDate) : Store × Nat :=
  filterArr st r fun entry =>
    decide (ChillHourCalculator.dateToMillis seasonStart ≤ entry.dateutc) &&
      decide (entry.dateutc ≤ ChillHourCalculator.dateToMillis seasonEnd)

/-- `calculateSeasonChillHours` under the store semantics. -/
def calculateSeasonChillHoursSt (minTemp maxTemp : ℚ) (st : Store) (r : Nat)
    (seasonStartMonth : Int) (year : Int) :
    ChillHourCalculator.ChillHourReport × Store :=
  let sd := ChillHourCalculator.determineSeasonDates seasonStartMonth year
  let f := filterDataForSeasonSt st r sd.1 sd.2
  if (readArr f.1 f.2).isEmpty then
    (ChillHourCalculator.createEmptyReport
      (ChillHourCalculator.formatSimpleDate sd.1 ++ " to " ++
        ChillHourCalculator.formatSimpleDate sd.2 ++ " (no data)"), f.1)
  else calculateChillHoursSt minTemp maxTemp f.1 f.2

end JsHeap

namespace ChillHourCalculator

/-- The hour key of a sample (abbreviation used by the grouping lemmas). -/
def sampleKey (s : WeatherData) : String := createHourKey s.dateutc

/-- Number of samples of `ys` falling in the hour bucket `k`. -/
def keyCount (ys : List WeatherData) (k : String) : Nat :=
  ys.countP fun s => sampleKey s == k

/-- Number of samples of `ys` falling in the hour bucket `k` whose
temperature is in the chill range. -/
def keyInRangeCount (minTemp maxTemp : ℚ) (ys : List WeatherData)
    (k : String) : Nat :=
  ys.countP fun s =>
    sampleKey s == k && isTemperatureInChillRange minTemp maxTemp s.tempf

/-- The chill-hour classification of bucket `k`, expressed directly on the
sample list: at least one sample, and the in-range ratio at least one
half. -/
def keyIsChill (minTemp maxTemp : ℚ) (ys : List WeatherData) (k : String) :
    Bool :=
  decide (0 < keyCount ys k) &&
    decide ((1 : ℚ) / 2 ≤
      (keyInRangeCount minTemp maxTemp ys k : ℚ) / (keyCount ys k : ℚ))

/-- Loop invariant of `groupReadingsByHour`: after consuming the samples
`ys`, the accumulated map `g` has distinct keys, its key set is the set of
hour keys of `ys`, and each entry holds exactly the temperatures (in order)
and the in-range count of its key's samples. -/
def GroupInv (minTemp maxTemp : ℚ) (ys : List WeatherData)
    (g : List (String × HourBucket)) : Prop :=
  (g.map Prod.fst).Nodup ∧
  (∀ k, k ∈ g.map Prod.fst ↔ k ∈ ys.map sampleKey) ∧
  ∀ e ∈ g,
    e.2.temps = ((ys.filter fun s => sampleKey s == e.1).map fun s => s.tempf) ∧
    e.2.inRange =
      ys.countP fun s =>
        sampleKey s == e.1 && isTemperatureInChillRange minTemp maxTemp s.tempf

/-- Four samples of one hour with two of the four in the default chill
range 32–45 °F. -/
def halfInRangeHour : List WeatherData :=
  [⟨0, 35⟩, ⟨60000, 40⟩, ⟨120000, 50⟩, ⟨180000, 60⟩]

/-- Three samples of one hour with one of the three in the default chill
range 32–45 °F. -/
def thirdInRangeHour : List WeatherData :=
  [⟨0, 35⟩, ⟨60000, 50⟩, ⟨120000, 60⟩]

end ChillHourCalculator

namespace AmbientWeatherAPI

/-- A data source whose every page is the single sample at epoch 0. -/
def pageAtZero : Nat → Int → List WeatherData := fun _ _ => [⟨0, 10⟩]

/-- A data source whose every page holds two samples sharing timestamp 5. -/
def duplicateTimestampPage : Nat → Int → List WeatherData :=
  fun _ _ => [⟨5, 20⟩, ⟨5, 21⟩]

/-- A data source holding one sample 400 days (34 560 000 000 ms) before
epoch 0. -/
def deepHistoryPage : Nat → Int → List WeatherData :=
  fun _ _ => [⟨-34560000000, 10⟩]

/-- A request outcome sequence that always fails with HTTP 401 (no
retryable status). -/
def resultsUnauthorized : Nat → Except RequestError Nat :=
  fun _ => Except.error { response := some { status := 401 } }

/-- A request outcome sequence that always fails with HTTP 429. -/
def resultsRateLimited : Nat → Except RequestError Nat :=
  fun _ => Except.error { response := some { status := 429 } }

end AmbientWeatherAPI


/-
Theorems.  Unfolding equations for the retry loop (claim C5).
-/

namespace AmbientWeatherAPI

theorem makeRequestAux_ok {α : Type} {results : Nat → Except RequestError α}
    {d m retries fuel : Nat} {a : α} (h : results retries = Except.ok a) :
    makeRequestAux results d m retries fuel = (Except.ok a, []) := by
  unfold makeRequestAux
  rw [h]

theorem makeRequestAux_nonretryable {α : Type}
    {results : Nat → Except RequestError α} {d m retries fuel : Nat}
    {e : RequestError} (h : results retries = Except.error e)
    (h2 : isRetryableError e = false) :
    makeRequestAux results d m retries fuel = (Except.error e, []) := by
  unfold makeRequestAux
  rw [h]
  simp [h2]

theorem makeRequestAux_exhausted {α : Type}
    {results : Nat → Except RequestError α} {d m retries fuel : Nat}
    {e : RequestError} (h : results retries = Except.error e)
    (h2 : isRetryableError e = true) (h3 : m ≤ retries) :
    makeRequestAux results d m retries fuel = (Except.error e, []) := by
  unfold makeRequestAux
  rw [h]
  simp [h2, h3]

theorem makeRequestAux_out_of_fuel {α : Type}
    {results : Nat → Except RequestError α} {d m retries : Nat}
    {e : RequestError} (h : results retries = Except.error e)
    (h2 : isRetryableError e = true) (h3 : ¬m ≤ retries) :
    makeRequestAux results d m retries 0 = (Except.error e, []) := by
  unfold makeRequestAux
  rw [h]
  simp [h2, h3]

theorem makeRequestAux_retry {α : Type}
    {results : Nat → Except RequestError α} {d m retries fuel : Nat}
    {e : RequestError} (h : results retries = Except.error e)
    (h2 : isRetryableError e = true) (h3 : ¬m ≤ retries) :
    makeRequestAux results d m retries (fuel + 1) =
      ((makeRequestAux results d m (retries + 1) fuel).1,
        calculateBackoffDelay d (retries + 1) ::
          (makeRequestAux results d m (retries + 1) fuel).2) := by
  conv_lhs => unfold makeRequestAux
  rw [h]
  simp [h2, h3]

theorem makeRequestAux_fuel_zero {α : Type}
    (results : Nat → Except RequestError α) (d m retries : Nat) :
    (makeRequestAux results d m retries 0).2 = [] := by
  cases hr : results retries with
  | ok a => rw [makeRequestAux_ok hr]
  | error e =>
    by_cases h2 : isRetryableError e
    · by_cases h3 : m ≤ retries
      · rw [makeRequestAux_exhausted hr h2 h3]
      · rw [makeRequestAux_out_of_fuel hr h2 h3]
    · rw [makeRequestAux_nonretryable hr (Bool.not_eq_true _ ▸ h2)]

theorem makeRequestAux_length_le {α : Type}
    (results : Nat → Except RequestError α) (d m : Nat) :
    ∀ fuel retries, (makeRequestAux results d m retries fuel).2.length ≤ fuel := by
  intro fuel
  induction fuel with
  | zero => intro retries; simp [makeRequestAux_fuel_zero]
  | succ fuel ih =>
    intro retries
    cases hr : results retries with
    | ok a => rw [makeRequestAux_ok hr]; simp
    | error e =>
      by_cases h2 : isRetryableError e
      · by_cases h3 : m ≤ retries
        · rw [makeRequestAux_exhausted hr h2 h3]; simp
        · rw [makeRequestAux_retry hr h2 h3]
          simpa using ih (retries + 1)
      · rw [makeRequestAux_nonretryable hr (Bool.not_eq_true _ ▸ h2)]; simp

theorem makeRequestAux_getD {α : Type}
    (results : Nat → Except RequestError α) (d m : Nat) :
    ∀ fuel retries i,
      i < (makeRequestAux results d m retries fuel).2.length →
      (makeRequestAux results d m retries fuel).2.getD i 0 =
        calculateBackoffDelay d (retries + i + 1) := by
  intro fuel
  induction fuel with
  | zero =>
    intro retries i hi
    rw [makeRequestAux_fuel_zero] at hi
    simp at hi
  | succ fuel ih =>
    intro retries i hi
    cases hr : results retries with
    | ok a => rw [makeRequestAux_ok hr] at hi; simp at hi
    | error e =>
      by_cases h2 : isRetryableError e
      · by_cases h3 : m ≤ retries
        · rw [makeRequestAux_exhausted hr h2 h3] at hi; simp at hi
        · rw [makeRequestAux_retry hr h2 h3] at hi ⊢
          cases i with
          | zero => simp
          | succ i =>
            simp only [List.getD_cons_succ]
            simp only [List.length_cons, Nat.add_lt_add_iff_right] at hi
            rw [ih (retries + 1) i hi]
            congr 1
            omega
      · rw [makeRequestAux_nonretryable hr (Bool.not_eq_true _ ▸ h2)] at hi
        simp at hi

end AmbientWeatherAPI

namespace AmbientWeatherAPI

/-- C5: For every single page request, a response with HTTP status 429 or
any 5xx status is retried, up to a maximum of 3 retries by default, the
k-th retry preceded by a backoff wait of `rateLimitDelay * 2 ^ (k - 1)`;
any error that is not a 429/5xx response propagates to the caller
immediately with zero retries and zero backoff waits.  (Backoff waits are
the second component of `makeRequest`; their count is the number of
retries performed.) -/
theorem makeRequest_retry_policy {α : Type}
    (results : Nat → Except RequestError α) (rateLimitDelay : Nat) :
    (makeRequest results rateLimitDelay DEFAULT_MAX_RETRIES).2.length ≤
        DEFAULT_MAX_RETRIES ∧
    (∀ i, i < (makeRequest results rateLimitDelay DEFAULT_MAX_RETRIES).2.length →
      (makeRequest results rateLimitDelay DEFAULT_MAX_RETRIES).2.getD i 0 =
        rateLimitDelay * 2 ^ i) ∧
    (∀ e, results 0 = Except.error e → isRetryableError e = false →
      makeRequest results rateLimitDelay DEFAULT_MAX_RETRIES =
        (Except.error e, [])) ∧
    (∀ e, results 0 = Except.error e → isRetryableError e = true →
      (makeRequest results rateLimitDelay DEFAULT_MAX_RETRIES).2 ≠ []) := by
  refine ⟨?_, ?_, ?_, ?_⟩
  · exact makeRequestAux_length_le results rateLimitDelay DEFAULT_MAX_RETRIES
      DEFAULT_MAX_RETRIES 0
  · intro i hi
    have h := makeRequestAux_getD results rateLimitDelay DEFAULT_MAX_RETRIES
      DEFAULT_MAX_RETRIES 0 i hi
    rw [makeRequest] at *
    rw [h]
    simp [calculateBackoffDelay]
  · intro e h1 h2
    exact makeRequestAux_nonretryable h1 h2
  · intro e h1 h2
    rw [makeRequest, show DEFAULT_MAX_RETRIES = 2 + 1 from rfl,
      makeRequestAux_retry h1 h2 (by simp [DEFAULT_MAX_RETRIES])]
    simp

/-- Witness for C5 at a concrete non-retryable input: an HTTP 401 error
propagates with no retries and no backoff waits. -/
theorem makeRequest_retry_policy_witness :
    makeRequest resultsUnauthorized 1000 DEFAULT_MAX_RETRIES =
      (Except.error { response := some { status := 401 } }, []) :=
  (makeRequest_retry_policy resultsUnauthorized 1000).2.2.1 _ rfl (by decide)

end AmbientWeatherAPI

/-
The backward-chunked fetch loop (claims C8, C2, C1, C9).
-/

namespace AmbientWeatherAPI

theorem fetchDataInChunksAux_empty_page {getData : Nat → Int → List WeatherData}
    {startDate : Int} {fuel : Nat} {cursor : Int} {acc : List WeatherData}
    {count : Nat} (h : getData count cursor = []) :
    fetchDataInChunksAux getData startDate (fuel + 1) cursor acc count =
      (acc, count + 1) := by
  unfold fetchDataInChunksAux
  simp [h]

theorem fetchDataInChunksAux_stop {getData : Nat → Int → List WeatherData}
    {startDate : Int} {fuel : Nat} {cursor : Int} {acc : List WeatherData}
    {count : Nat} (h : getData count cursor ≠ [])
    (h2 : findEarliestTimestamp (getData count cursor) ≤ startDate) :
    fetchDataInChunksAux getData startDate (fuel + 1) cursor acc count =
      (acc ++ getData count cursor, count + 1) := by
  unfold fetchDataInChunksAux
  simp only [processChunk, List.isEmpty_iff, if_neg h, if_pos h2]
  simp

theorem fetchDataInChunksAux_continue {getData : Nat → Int → List WeatherData}
    {startDate : Int} {fuel : Nat} {cursor : Int} {acc : List WeatherData}
    {count : Nat} (h : getData count cursor ≠ [])
    (h2 : ¬findEarliestTimestamp (getData count cursor) ≤ startDate) :
    fetchDataInChunksAux getData startDate (fuel + 1) cursor acc count =
      fetchDataInChunksAux getData startDate fuel
        (findEarliestTimestamp (getData count cursor) - ONE_SECOND_MS)
        (acc ++ getData count cursor) (count + 1) := by
  conv_lhs => unfold fetchDataInChunksAux
  simp only [processChunk, List.isEmpty_iff, if_neg h, if_neg h2]
  simp

theorem fetchDataInChunksAux_count_le
    (getData : Nat → Int → List WeatherData) (startDate : Int) :
    ∀ fuel cursor acc count,
      (fetchDataInChunksAux getData startDate fuel cursor acc count).2 ≤
        count + fuel := by
  intro fuel
  induction fuel with
  | zero => intro cursor acc count; simp [fetchDataInChunksAux]
  | succ fuel ih =>
    intro cursor acc count
    by_cases h : getData count cursor = []
    · rw [fetchDataInChunksAux_empty_page h]; omega
    · by_cases h2 : findEarliestTimestamp (getData count cursor) ≤ startDate
      · rw [fetchDataInChunksAux_stop h h2]; omega
      · rw [fetchDataInChunksAux_continue h h2]
        have := ih (findEarliestTimestamp (getData count cursor) - ONE_SECOND_MS)
          (acc ++ getData count cursor) (count + 1)
        omega

theorem fetchDataInChunksAux_count_lower
    (getData : Nat → Int → List WeatherData) (startDate : Int) :
    ∀ fuel cursor acc count,
      count ≤ (fetchDataInChunksAux getData startDate fuel cursor acc count).2 := by
  intro fuel
  induction fuel with
  | zero => intro cursor acc count; simp [fetchDataInChunksAux]
  | succ fuel ih =>
    intro cursor acc count
    by_cases h : getData count cursor = []
    · rw [fetchDataInChunksAux_empty_page h]; omega
    · by_cases h2 : findEarliestTimestamp (getData count cursor) ≤ startDate
      · rw [fetchDataInChunksAux_stop h h2]; omega
      · rw [fetchDataInChunksAux_continue h h2]
        have := ih (findEarliestTimestamp (getData count cursor) - ONE_SECOND_MS)
          (acc ++ getData count cursor) (count + 1)
        omega

/-- C8: the backward-chunk fetch loop terminates after at most the safety
cap of 100 page requests; a loop iteration stops on an empty page, stops
(after accumulating the page) when the page's minimum timestamp is at or
before the start date, and otherwise continues with the cursor advanced to
that minimum minus one second; when the fuel (the remaining allowance of
the 100-request cap) runs out, the accumulated samples are returned as a
normal result. -/
theorem fetchDataInChunks_cap_behavior
    (getData : Nat → Int → List WeatherData) (startDate endDate : Int) :
    (fetchDataInChunks getData startDate endDate).2 ≤ MAX_FETCH_OPERATIONS ∧
    (∀ fuel cursor acc count,
      (getData count cursor = [] →
        fetchDataInChunksAux getData startDate (fuel + 1) cursor acc count =
          (acc, count + 1)) ∧
      (getData count cursor ≠ [] →
        findEarliestTimestamp (getData count cursor) ≤ startDate →
        fetchDataInChunksAux getData startDate (fuel + 1) cursor acc count =
          (acc ++ getData count cursor, count + 1)) ∧
      (getData count cursor ≠ [] →
        ¬findEarliestTimestamp (getData count cursor) ≤ startDate →
        fetchDataInChunksAux getData startDate (fuel + 1) cursor acc count =
          fetchDataInChunksAux getData startDate fuel
            (findEarliestTimestamp (getData count cursor) - ONE_SECOND_MS)
            (acc ++ getData count cursor) (count + 1))) ∧
    (∀ cursor acc count,
      fetchDataInChunksAux getData startDate 0 cursor acc count = (acc, count)) := by
  refine ⟨?_, ?_, ?_⟩
  · simpa using fetchDataInChunksAux_count_le getData startDate
      MAX_FETCH_OPERATIONS endDate [] 0
  · intro fuel cursor acc count
    exact ⟨fun h => fetchDataInChunksAux_empty_page h,
      fun h h2 => fetchDataInChunksAux_stop h h2,
      fun h h2 => fetchDataInChunksAux_continue h h2⟩
  · intro cursor acc count
    rfl

/-- Witness for C8 at a concrete input: on a source that always returns
the sample at epoch 0, a fetch with `startDate = 0` stops after exactly one
page request, returning that page. -/
theorem fetchDataInChunks_cap_behavior_witness :
    fetchDataInChunksAux pageAtZero 0 (99 + 1) 0 [] 0 = ([⟨0, 10⟩], 0 + 1) :=
  ((fetchDataInChunks_cap_behavior pageAtZero 0 0).2.1 99 0 [] 0).2.1
    (by decide) (by decide)

end AmbientWeatherAPI

namespace AmbientWeatherAPI

theorem processRetrievedData_perm (allData : List WeatherData)
    (startDate endDate : Int) :
    (processRetrievedData allData startDate endDate).Perm
      (filterDataByDateRange allData startDate endDate) :=
  List.perm_insertionSort _ _

theorem mem_processRetrievedData_window {allData : List WeatherData}
    {startDate endDate : Int} {s : WeatherData}
    (h : s ∈ processRetrievedData allData startDate endDate) :
    startDate ≤ s.dateutc ∧ s.dateutc ≤ endDate := by
  have hf : s ∈ filterDataByDateRange allData startDate endDate :=
    ((processRetrievedData_perm allData startDate endDate).mem_iff).mp h
  have := (List.mem_filter.mp hf).2
  simpa using this

theorem processRetrievedData_pairwise (allData : List WeatherData)
    (startDate endDate : Int) :
    List.Pairwise (fun a b : WeatherData => a.dateutc ≤ b.dateutc)
      (processRetrievedData allData startDate endDate) := by
  haveI : IsTotal WeatherData (fun a b => a.dateutc ≤ b.dateutc) :=
    ⟨fun a b => Int.le_total a.dateutc b.dateutc⟩
  haveI : IsTrans WeatherData (fun a b => a.dateutc ≤ b.dateutc) :=
    ⟨fun a b c hab hbc => le_trans hab hbc⟩
  exact List.sorted_insertionSort _ (filterDataByDateRange allData startDate endDate)

/-- C1 (amended): the sample sequence returned by the range fetch is sorted
ascending by timestamp and contains exactly the accumulated samples whose
timestamp lies within `[startDate, endDate]` — in particular every returned
timestamp is in the window; but duplicates are NOT removed: the output is a
permutation of the in-window accumulator, so samples sharing a timestamp
all remain. -/
theorem getDeviceDataForDateRange_sorted_filtered
    (getData : Nat → Int → List WeatherData) (startDate endDate maxDays : Int) :
    List.Pairwise (fun a b : WeatherData => a.dateutc ≤ b.dateutc)
      (getDeviceDataForDateRange getData startDate endDate maxDays).1 ∧
    (∀ s ∈ (getDeviceDataForDateRange getData startDate endDate maxDays).1,
      startDate ≤ s.dateutc ∧ s.dateutc ≤ endDate) ∧
    (getDeviceDataForDateRange getData startDate endDate maxDays).1.Perm
      (filterDataByDateRange (fetchDataInChunks getData startDate endDate).1
        startDate endDate) := by
  refine ⟨processRetrievedData_pairwise _ _ _,
    fun s hs => mem_processRetrievedData_window hs,
    processRetrievedData_perm _ _ _⟩

/-- Witness for C1 at a concrete input: a returned sample's timestamp lies
in the requested window. -/
theorem getDeviceDataForDateRange_sorted_filtered_witness :
    (5 : Int) ≤ (WeatherData.mk 5 20).dateutc ∧
      (WeatherData.mk 5 20).dateutc ≤ 10 :=
  (getDeviceDataForDateRange_sorted_filtered duplicateTimestampPage 5 10 365).2.1
    ⟨5, 20⟩ (by decide)

/-- Counterexample to C1 as stated: with a page holding two samples that
share timestamp 5, the range fetch returns both — the output is not
deduplicated by timestamp. -/
theorem getDeviceDataForDateRange_not_deduplicated :
    ¬((getDeviceDataForDateRange duplicateTimestampPage 5 10 365).1.map
        (fun s => s.dateutc)).Nodup := by
  decide

/-- C2 (amended): for a fetch whose `startDate` is at or after its
`endDate`, the loop still issues at least one page request, and every
returned sample is timestamped exactly at `startDate = endDate` (hence the
result is empty whenever `startDate > endDate`). -/
theorem getDeviceDataForDateRange_degenerate_window
    (getData : Nat → Int → List WeatherData) (startDate endDate maxDays : Int)
    (h : endDate ≤ startDate) :
    1 ≤ (getDeviceDataForDateRange getData startDate endDate maxDays).2 ∧
    ∀ s ∈ (getDeviceDataForDateRange getData startDate endDate maxDays).1,
      s.dateutc = startDate ∧ s.dateutc = endDate := by
  constructor
  · show 1 ≤ (fetchDataInChunks getData startDate endDate).2
    rw [fetchDataInChunks]
    by_cases hc : getData 0 endDate = []
    · rw [show MAX_FETCH_OPERATIONS = 99 + 1 from rfl,
        fetchDataInChunksAux_empty_page hc]
    · by_cases h2 : findEarliestTimestamp (getData 0 endDate) ≤ startDate
      · rw [show MAX_FETCH_OPERATIONS = 99 + 1 from rfl,
          fetchDataInChunksAux_stop hc h2]
      · rw [show MAX_FETCH_OPERATIONS = 99 + 1 from rfl,
          fetchDataInChunksAux_continue hc h2]
        calc 1 ≤ 0 + 1 := by omega
          _ ≤ _ := fetchDataInChunksAux_count_lower getData startDate 99
              (findEarliestTimestamp (getData 0 endDate) - ONE_SECOND_MS)
              ([] ++ getData 0 endDate) (0 + 1)
  · intro s hs
    have hw := mem_processRetrievedData_window hs
    omega

/-- Witness for C2's amended statement at a concrete input. -/
theorem getDeviceDataForDateRange_degenerate_window_witness :
    1 ≤ (getDeviceDataForDateRange pageAtZero 0 0 365).2 :=
  (getDeviceDataForDateRange_degenerate_window pageAtZero 0 0 365
    (by decide)).1

/-- Counterexample to C2 as stated: with `startDate = endDate = 0` and a
source whose page holds the sample at epoch 0, the fetch issues one page
request (not zero) and returns one sample (not zero samples). -/
theorem getDeviceDataForDateRange_degenerate_counterexample :
    ¬((getDeviceDataForDateRange pageAtZero 0 0 365).1 = [] ∧
      (getDeviceDataForDateRange pageAtZero 0 0 365).2 = 0) := by
  intro hcl
  exact absurd hcl.2 (by decide)

/-- C9 evidence: `maxDays = 365` does not cap the returned span — with
`startDate` 400 days (34 560 000 000 ms) before `endDate = 0`, the fetch
returns a sample older than 365 days before the end date. -/
theorem getDeviceDataForDateRange_ignores_maxDays :
    (getDeviceDataForDateRange deepHistoryPage (-34560000000) 0 365).1 =
      [⟨-34560000000, 10⟩] ∧
    365 * MILLISECONDS_PER_DAY < 0 - (-34560000000 : Int) := by
  exact ⟨by decide, by decide⟩

end AmbientWeatherAPI

/-
The season window (claim C4).
-/

namespace ChillHourCalculator

/-- Counterexample to C4 as stated: for start month 3 (which is ≤ 6) and
target year 2023, the claimed general rule gives a window starting January
1, 2023, but the code's window starts March 1, 2023 (the 1st of the start
month), as the claim's own second example records. -/
theorem determineSeasonDates_not_january_first :
    (determineSeasonDates 3 2023).1 ≠ ⟨2023, 1, 1⟩ := by
  decide

/-- C4 (amended): for every start month in 1..12 and target year, the
season window is the 1st of the start month through December 31 of the
target year when the start month is at most 6, and otherwise runs from the
1st of the start month in the previous year to the last day of the
preceding month (the day before the 1st of the start month) in the target
year; in particular (9, 2023) gives [2022-09-01, 2023-08-31] and (3, 2023)
gives [2023-03-01, 2023-12-31]. -/
theorem determineSeasonDates_window (seasonStartMonth year : Int)
    (h1 : 1 ≤ seasonStartMonth) (h2 : seasonStartMonth ≤ 12) :
    (determineSeasonDates seasonStartMonth year =
      if seasonStartMonth ≤ 6 then
        (⟨year, seasonStartMonth, 1⟩, ⟨year, 12, 31⟩)
      else
        (⟨year - 1, seasonStartMonth, 1⟩,
         ⟨year, seasonStartMonth - 1,
          daysInMonth year (seasonStartMonth - 1)⟩)) ∧
    determineSeasonDates 9 2023 = (⟨2022, 9, 1⟩, ⟨2023, 8, 31⟩) ∧
    determineSeasonDates 3 2023 = (⟨2023, 3, 1⟩, ⟨2023, 12, 31⟩) := by
  refine ⟨?_, by decide, by decide⟩
  by_cases h : seasonStartMonth ≤ 6
  · rw [if_pos h]
    unfold determineSeasonDates
    rw [if_pos h]
    unfold jsMkDate
    rw [if_pos (by omega : (1 : Int) ≤ 1), if_pos (by norm_num [DECEMBER_MONTH] :
      (1 : Int) ≤ 31)]
    simp only [Prod.mk.injEq, SimpleDate.mk.injEq, DECEMBER_MONTH]
    norm_num
  · rw [if_neg h]
    unfold determineSeasonDates
    rw [if_neg h]
    unfold jsMkDate
    rw [if_pos (by omega : (1 : Int) ≤ 1), if_neg (by omega : ¬(1 : Int) ≤ 0),
      if_neg (by omega : ¬seasonStartMonth - 1 = 0)]
    simp only [Prod.mk.injEq, SimpleDate.mk.injEq]
    norm_num

/-- Witness for C4's amended statement at start month 9, year 2023. -/
theorem determineSeasonDates_window_witness :
    determineSeasonDates 9 2023 =
      (⟨2023 - 1, 9, 1⟩, ⟨2023, 9 - 1, daysInMonth 2023 (9 - 1)⟩) := by
  have h := (determineSeasonDates_window 9 2023 (by decide) (by decide)).1
  rw [if_neg (by decide : ¬(9 : Int) ≤ 6)] at h
  exact h

end ChillHourCalculator

/-
Report invariants (claim C6).
-/

namespace ChillHourCalculator

theorem calculateChillHours_eq (minTemp maxTemp : ℚ) (data : List WeatherData) :
    calculateChillHours minTemp maxTemp data =
      if (sortDataChronologically data).isEmpty then
        createEmptyReport "No data available"
      else
        createReport (sortDataChronologically data)
          (groupReadingsByHour minTemp maxTemp (sortDataChronologically data)).length
          ((groupReadingsByHour minTemp maxTemp
            (sortDataChronologically data)).countP fun e => isChillHour e.2) :=
  rfl

/-- C6: every report of the aggregator satisfies
`0 ≤ chillHours ≤ totalHours`, and `percentChillHours` is
`100 * chillHours / totalHours` when `totalHours > 0` and `0` when
`totalHours = 0`. -/
theorem calculateChillHours_report_invariants (minTemp maxTemp : ℚ)
    (data : List WeatherData) :
    0 ≤ (calculateChillHours minTemp maxTemp data).chillHours ∧
    (calculateChillHours minTemp maxTemp data).chillHours ≤
      (calculateChillHours minTemp maxTemp data).totalHours ∧
    (0 < (calculateChillHours minTemp maxTemp data).totalHours →
      (calculateChillHours minTemp maxTemp data).percentChillHours =
        100 * ((calculateChillHours minTemp maxTemp data).chillHours : ℚ) /
          ((calculateChillHours minTemp maxTemp data).totalHours : ℚ)) ∧
    ((calculateChillHours minTemp maxTemp data).totalHours = 0 →
      (calculateChillHours minTemp maxTemp data).percentChillHours = 0) := by
  rw [calculateChillHours_eq]
  by_cases he : (sortDataChronologically data).isEmpty
  · rw [if_pos he]
    refine ⟨Nat.zero_le _, Nat.le_refl _, ?_, ?_⟩ <;> intro h <;>
      simp [createEmptyReport]
  · rw [if_neg he]
    simp only [createReport]
    refine ⟨Nat.zero_le _, List.countP_le_length _, ?_, ?_⟩
    · intro ht
      rw [if_pos ht]
      ring
    · intro ht
      rw [if_neg (by omega)]

/-- Witness for C6 at the empty sample list: the empty report has
`percentChillHours = 0`. -/
theorem calculateChillHours_report_invariants_witness :
    (calculateChillHours 32 45 []).percentChillHours = 0 :=
  (calculateChillHours_report_invariants 32 45 []).2.2.2 rfl

end ChillHourCalculator


/-
The grouping invariant (claims C3 and C7).
-/

namespace ChillHourCalculator

theorem insertSample_of_mem {minTemp maxTemp : ℚ}
    {g : List (String × HourBucket)} {s : WeatherData}
    (hp : g.any (fun e => e.1 == sampleKey s) = true) :
    insertSample minTemp maxTemp g s =
      g.map fun e =>
        if e.1 == sampleKey s then (e.1, bucketPush minTemp maxTemp s e.2)
        else e := by
  rw [show sampleKey s = createHourKey s.dateutc from rfl] at hp ⊢
  simp only [insertSample]
  rw [if_pos hp]

theorem insertSample_of_not_mem {minTemp maxTemp : ℚ}
    {g : List (String × HourBucket)} {s : WeatherData}
    (hp : ¬g.any (fun e => e.1 == sampleKey s) = true) :
    insertSample minTemp maxTemp g s =
      g ++ [(sampleKey s,
        bucketPush minTemp maxTemp s { temps := [], inRange := 0 })] := by
  rw [show sampleKey s = createHourKey s.dateutc from rfl] at hp ⊢
  simp only [insertSample]
  rw [if_neg hp]

theorem keys_map_update {g : List (String × HourBucket)} {k : String}
    {f : HourBucket → HourBucket} :
    ((g.map fun e => if e.1 == k then (e.1, f e.2) else e).map Prod.fst) =
      g.map Prod.fst := by
  rw [List.map_map]
  apply List.map_congr_left
  intro e _
  by_cases h : e.1 = k <;> simp [h]

theorem groupInv_insert {minTemp maxTemp : ℚ} {ys : List WeatherData}
    {g : List (String × HourBucket)}
    (hinv : GroupInv minTemp maxTemp ys g) (s : WeatherData) :
    GroupInv minTemp maxTemp (ys ++ [s]) (insertSample minTemp maxTemp g s) := by
  obtain ⟨hnd, hmem, hent⟩ := hinv
  by_cases hp : g.any (fun e => e.1 == sampleKey s) = true
  · -- the key is already present: the matching bucket is updated in place
    rw [insertSample_of_mem hp]
    obtain ⟨e0, he0, he0k⟩ := List.any_eq_true.mp hp
    have he0k' : e0.1 = sampleKey s := by simpa using he0k
    refine ⟨?_, ?_, ?_⟩
    · rw [keys_map_update]; exact hnd
    · intro k
      rw [keys_map_update, hmem k]
      simp only [List.map_append, List.map_cons, List.map_nil,
        List.mem_append, List.mem_singleton]
      constructor
      · exact fun h => Or.inl h
      · rintro (h | rfl)
        · exact h
        · have : sampleKey s ∈ g.map Prod.fst :=
            he0k' ▸ List.mem_map_of_mem Prod.fst he0
          exact (hmem (sampleKey s)).mp this
    · intro e' he'
      obtain ⟨e, he, rfl⟩ := List.mem_map.mp he'
      by_cases hk : (e.1 == sampleKey s) = true
      · have hk' : e.1 = sampleKey s := by simpa using hk
        have hsk : (sampleKey s == e.1) = true := by simp [hk']
        rw [if_pos hk]
        obtain ⟨ht, hr⟩ := hent e he
        constructor
        · show e.2.temps ++ [s.tempf] = _
          rw [ht, List.filter_append, List.map_append]
          congr 1
          simp [hsk]
        · show e.2.inRange + _ = _
          rw [hr, List.countP_append]
          congr 1
          simp only [List.countP_cons, List.countP_nil, Nat.zero_add]
          rw [hsk]
          simp
      · have hk' : e.1 ≠ sampleKey s := by simpa using hk
        have hne : sampleKey s ≠ e.1 := Ne.symm hk'
        have hsk : (sampleKey s == e.1) = false := by simp [hne]
        rw [if_neg hk]
        obtain ⟨ht, hr⟩ := hent e he
        constructor
        · rw [ht, List.filter_append]
          have h1 : List.filter (fun x => sampleKey x == e.1) [s] = [] := by
            simp [hsk]
          rw [h1, List.append_nil]
        · rw [hr, List.countP_append]
          have h1 : List.countP
              (fun x => sampleKey x == e.1 &&
                isTemperatureInChillRange minTemp maxTemp x.tempf) [s] = 0 := by
            simp [hsk]
          rw [h1, Nat.add_zero]
  · -- a fresh key: a new bucket is appended at the end
    rw [insertSample_of_not_mem hp]
    have hnotin : sampleKey s ∉ g.map Prod.fst := by
      intro hin
      obtain ⟨e, he, hek⟩ := List.mem_map.mp hin
      exact hp (List.any_eq_true.mpr ⟨e, he, by simp [hek]⟩)
    have hnotys : sampleKey s ∉ ys.map sampleKey := fun h =>
      hnotin ((hmem (sampleKey s)).mpr h)
    refine ⟨?_, ?_, ?_⟩
    · rw [List.map_append, List.nodup_append]
      refine ⟨hnd, by simp, ?_⟩
      intro a ha hb
      simp only [List.map_cons, List.map_nil, List.mem_singleton] at hb
      exact hnotin (hb ▸ ha)
    · intro k
      simp only [List.map_append, List.mem_append, List.map_cons,
        List.map_nil, List.mem_singleton, hmem k]
    · intro e' he'
      rcases List.mem_append.mp he' with he | he
      · have hk' : e'.1 ≠ sampleKey s := by
          intro h
          exact hnotin (h ▸ List.mem_map_of_mem Prod.fst he)
        have hne : sampleKey s ≠ e'.1 := Ne.symm hk'
        have hsk : (sampleKey s == e'.1) = false := by simp [hne]
        obtain ⟨ht, hr⟩ := hent e' he
        constructor
        · rw [ht, List.filter_append]
          have h1 : List.filter (fun x => sampleKey x == e'.1) [s] = [] := by
            simp [hsk]
          rw [h1, List.append_nil]
        · rw [hr, List.countP_append]
          have h1 : List.countP
              (fun x => sampleKey x == e'.1 &&
                isTemperatureInChillRange minTemp maxTemp x.tempf) [s] = 0 := by
            simp [hsk]
          rw [h1, Nat.add_zero]
      · simp only [List.mem_singleton] at he
        subst he
        have hfil : List.filter (fun x => sampleKey x == sampleKey s) ys = [] := by
          rw [List.filter_eq_nil_iff]
          intro x hx hsx
          have hxx : sampleKey x = sampleKey s := by simpa using hsx
          exact hnotys (hxx ▸ List.mem_map_of_mem sampleKey hx)
        have hcnt : List.countP
            (fun x => sampleKey x == sampleKey s &&
              isTemperatureInChillRange minTemp maxTemp x.tempf) ys = 0 := by
          rw [List.countP_eq_length_filter]
          have h1 : List.filter
              (fun x => sampleKey x == sampleKey s &&
                isTemperatureInChillRange minTemp maxTemp x.tempf) ys = [] := by
            rw [List.filter_eq_nil_iff]
            intro x hx hsx
            have hx1 : (sampleKey x == sampleKey s) = true :=
              (Bool.and_eq_true _ _ ▸ hsx).1
            have hxx : sampleKey x = sampleKey s := by simpa using hx1
            exact hnotys (hxx ▸ List.mem_map_of_mem sampleKey hx)
          rw [h1]
          rfl
        constructor
        · show [] ++ [s.tempf] = _
          rw [List.filter_append, hfil]
          simp
        · show 0 + _ = _
          rw [List.countP_append, hcnt]
          simp only [List.countP_cons, List.countP_nil, Nat.zero_add,
            Nat.add_zero]
          have hself : (sampleKey s == sampleKey s) = true := by simp
          rw [hself]
          simp

end ChillHourCalculator

namespace ChillHourCalculator

theorem groupReadingsByHour_inv (minTemp maxTemp : ℚ) (ys : List WeatherData) :
    GroupInv minTemp maxTemp ys (groupReadingsByHour minTemp maxTemp ys) := by
  induction ys using List.reverseRecOn with
  | nil => exact ⟨List.nodup_nil, by simp [groupReadingsByHour], by
      simp [groupReadingsByHour]⟩
  | append_singleton ys s ih =>
    have : groupReadingsByHour minTemp maxTemp (ys ++ [s]) =
        insertSample minTemp maxTemp (groupReadingsByHour minTemp maxTemp ys) s := by
      simp only [groupReadingsByHour, List.foldl_concat]
    rw [this]
    exact groupInv_insert ih s

theorem mem_group_bucket {minTemp maxTemp : ℚ} {ys : List WeatherData}
    {k : String} {b : HourBucket}
    (h : (k, b) ∈ groupReadingsByHour minTemp maxTemp ys) :
    b.temps = ((ys.filter fun s => sampleKey s == k).map fun s => s.tempf) ∧
    b.inRange =
      ys.countP (fun s =>
        sampleKey s == k && isTemperatureInChillRange minTemp maxTemp s.tempf) ∧
    b.temps ≠ [] := by
  obtain ⟨hnd, hmem, hent⟩ := groupReadingsByHour_inv minTemp maxTemp ys
  obtain ⟨ht, hr⟩ := hent (k, b) h
  refine ⟨ht, hr, ?_⟩
  have hk : k ∈ (groupReadingsByHour minTemp maxTemp ys).map Prod.fst :=
    List.mem_map_of_mem Prod.fst h
  obtain ⟨x, hx, hxk⟩ := List.mem_map.mp ((hmem k).mp hk)
  have hxf : x ∈ ys.filter fun s => sampleKey s == k := by
    rw [List.mem_filter]
    exact ⟨hx, by simp [hxk]⟩
  intro hnil
  rw [ht] at hnil
  rw [List.map_eq_nil_iff] at hnil
  rw [hnil] at hxf
  exact List.not_mem_nil x hxf

/-- In every bucket of the grouping, the stored `inRange` counter equals
the number of stored temperatures lying in the chill range. -/
theorem group_bucket_inRange_eq_countP {minTemp maxTemp : ℚ}
    {ys : List WeatherData} {k : String} {b : HourBucket}
    (h : (k, b) ∈ groupReadingsByHour minTemp maxTemp ys) :
    b.inRange = b.temps.countP (isTemperatureInChillRange minTemp maxTemp) := by
  obtain ⟨ht, hr, _⟩ := mem_group_bucket h
  rw [ht, hr, List.countP_map, List.countP_filter]
  apply List.countP_congr
  intro x _
  simp only [Function.comp]
  constructor
  · intro hx
    have h1 := (Bool.and_eq_true _ _ ▸ hx).1
    have h2 := (Bool.and_eq_true _ _ ▸ hx).2
    rw [Bool.and_eq_true]
    exact ⟨h2, h1⟩
  · intro hx
    have h1 := (Bool.and_eq_true _ _ ▸ hx).1
    have h2 := (Bool.and_eq_true _ _ ▸ hx).2
    rw [Bool.and_eq_true]
    exact ⟨h2, h1⟩

end ChillHourCalculator

namespace ChillHourCalculator

/-- C3: an hour bucket produced by the aggregator (it always holds at least
one sample) is classified as a chill hour iff the count of its samples with
temperature in `[minTemp, maxTemp]` divided by the bucket's sample count is
at least one half; in particular 2 in-range samples out of 4 make a chill
hour and 1 out of 3 does not. -/
theorem isChillHour_half_rule :
    (∀ (minTemp maxTemp : ℚ) (ys : List WeatherData) (k : String)
      (b : HourBucket), (k, b) ∈ groupReadingsByHour minTemp maxTemp ys →
      (isChillHour b = true ↔
        (1 : ℚ) / 2 ≤
          (b.temps.countP (isTemperatureInChillRange minTemp maxTemp) : ℚ) /
            (b.temps.length : ℚ))) ∧
    countChillHours (groupReadingsByHour 32 45 halfInRangeHour) = (1, 1) ∧
    countChillHours (groupReadingsByHour 32 45 thirdInRangeHour) = (1, 0) := by
  refine ⟨?_, ?_, ?_⟩
  · intro minTemp maxTemp ys k b h
    have hr := group_bucket_inRange_eq_countP h
    have hne := (mem_group_bucket h).2.2
    have hlen : 0 < b.temps.length := List.length_pos.mpr hne
    rw [isChillHour, Bool.and_eq_true, decide_eq_true_eq, decide_eq_true_eq,
      hr]
    exact ⟨fun hc => hc.2, fun hc => ⟨hlen, hc⟩⟩
  · have hg : groupReadingsByHour 32 45 halfInRangeHour =
        [(createHourKey 0, ⟨[35, 40, 50, 60], 2⟩)] := by decide
    have hb : isChillHour ⟨[35, 40, 50, 60], 2⟩ = true := by
      simp only [isChillHour, Bool.and_eq_true, decide_eq_true_eq]
      norm_num
    rw [hg]
    simp [countChillHours, List.countP_cons, hb]
  · have hg : groupReadingsByHour 32 45 thirdInRangeHour =
        [(createHourKey 0, ⟨[35, 50, 60], 1⟩)] := by decide
    have hb : isChillHour ⟨[35, 50, 60], 1⟩ = false := by
      rw [Bool.eq_false_iff]
      intro hcon
      rw [isChillHour, Bool.and_eq_true, decide_eq_true_eq,
        decide_eq_true_eq] at hcon
      have := hcon.2
      norm_num at this
    rw [hg]
    simp [countChillHours, List.countP_cons, hb]

/-- Witness for C3: the half rule applied to the concrete four-sample
bucket of `halfInRangeHour`. -/
theorem isChillHour_half_rule_witness :
    isChillHour ⟨[35, 40, 50, 60], 2⟩ = true ↔
      (1 : ℚ) / 2 ≤
        ((([35, 40, 50, 60] : List ℚ).countP
          (isTemperatureInChillRange 32 45) : ℚ) /
          (([35, 40, 50, 60] : List ℚ).length : ℚ)) :=
  isChillHour_half_rule.1 32 45 halfInRangeHour (createHourKey 0)
    ⟨[35, 40, 50, 60], 2⟩ (by decide)

end ChillHourCalculator

/-
Permutation invariance of the aggregator (claim C7).
-/

namespace ChillHourCalculator

theorem sortDataChronologically_perm (data : List WeatherData) :
    (sortDataChronologically data).Perm data :=
  List.perm_insertionSort _ _

theorem sortDataChronologically_pairwise (data : List WeatherData) :
    List.Pairwise (fun a b : WeatherData => a.dateutc ≤ b.dateutc)
      (sortDataChronologically data) := by
  haveI : IsTotal WeatherData (fun a b => a.dateutc ≤ b.dateutc) :=
    ⟨fun a b => Int.le_total a.dateutc b.dateutc⟩
  haveI : IsTrans WeatherData (fun a b => a.dateutc ≤ b.dateutc) :=
    ⟨fun a b c hab hbc => le_trans hab hbc⟩
  exact List.sorted_insertionSort _ data

theorem sorted_headD_min {xs : List WeatherData} {d : WeatherData}
    (hs : List.Pairwise (fun p q : WeatherData => p.dateutc ≤ q.dateutc) xs)
    {x : WeatherData} (hx : x ∈ xs) :
    (xs.headD d).dateutc ≤ x.dateutc := by
  cases xs with
  | nil => cases hx
  | cons a as =>
    rw [List.headD_cons]
    rcases List.mem_cons.mp hx with rfl | hxs
    · exact le_refl _
    · exact (List.pairwise_cons.mp hs).1 x hxs

theorem getLastD_eq_or_mem {α : Type} :
    ∀ (l : List α) (d : α), l.getLastD d = d ∨ l.getLastD d ∈ l := by
  intro l
  induction l with
  | nil => intro d; left; rfl
  | cons a l ih =>
    intro d
    rw [List.getLastD_cons]
    rcases ih a with h | h
    · right; rw [h]; exact List.mem_cons_self a l
    · right; exact List.mem_cons_of_mem a h

theorem sorted_getLastD_max :
    ∀ (xs : List WeatherData) (d : WeatherData),
      List.Pairwise (fun p q : WeatherData => p.dateutc ≤ q.dateutc) xs →
      ∀ x ∈ xs, x.dateutc ≤ (xs.getLastD d).dateutc := by
  intro xs
  induction xs with
  | nil => intro d _ x hx; cases hx
  | cons a as ih =>
    intro d hs x hx
    rw [List.getLastD_cons]
    obtain ⟨ha, has⟩ := List.pairwise_cons.mp hs
    rcases List.mem_cons.mp hx with rfl | hxs
    · rcases getLastD_eq_or_mem as x with h | h
      · rw [h]
      · exact ha _ h
    · exact ih a has x hxs

end ChillHourCalculator

namespace ChillHourCalculator

theorem group_keys_nodup (minTemp maxTemp : ℚ) (ys : List WeatherData) :
    ((groupReadingsByHour minTemp maxTemp ys).map Prod.fst).Nodup :=
  (groupReadingsByHour_inv minTemp maxTemp ys).1

theorem group_keys_mem (minTemp maxTemp : ℚ) (ys : List WeatherData)
    (k : String) :
    (k ∈ (groupReadingsByHour minTemp maxTemp ys).map Prod.fst ↔
      k ∈ ys.map sampleKey) :=
  (groupReadingsByHour_inv minTemp maxTemp ys).2.1 k

theorem group_keys_perm (minTemp maxTemp : ℚ) {ys ys' : List WeatherData}
    (hp : ys.Perm ys') :
    ((groupReadingsByHour minTemp maxTemp ys).map Prod.fst).Perm
      ((groupReadingsByHour minTemp maxTemp ys').map Prod.fst) := by
  rw [List.perm_ext_iff_of_nodup (group_keys_nodup minTemp maxTemp ys)
    (group_keys_nodup minTemp maxTemp ys')]
  intro k
  rw [group_keys_mem, group_keys_mem]
  exact (hp.map sampleKey).mem_iff

theorem group_entry_isChillHour {minTemp maxTemp : ℚ} {ys : List WeatherData}
    {k : String} {b : HourBucket}
    (h : (k, b) ∈ groupReadingsByHour minTemp maxTemp ys) :
    isChillHour b = keyIsChill minTemp maxTemp ys k := by
  obtain ⟨ht, hr, _⟩ := mem_group_bucket h
  have hlen : b.temps.length = keyCount ys k := by
    rw [ht, List.length_map, ← List.countP_eq_length_filter]
    rfl
  have hinr : b.inRange = keyInRangeCount minTemp maxTemp ys k := hr
  rw [isChillHour, keyIsChill, hlen, hinr]

theorem group_countP_chill (minTemp maxTemp : ℚ) (ys : List WeatherData) :
    ((groupReadingsByHour minTemp maxTemp ys).countP fun e => isChillHour e.2) =
      ((groupReadingsByHour minTemp maxTemp ys).map Prod.fst).countP
        (keyIsChill minTemp maxTemp ys) := by
  rw [List.countP_map]
  apply List.countP_congr
  intro e he
  have : isChillHour e.2 = keyIsChill minTemp maxTemp ys e.1 :=
    group_entry_isChillHour (by simpa using he)
  rw [Function.comp_apply, this]

theorem keyIsChill_perm {minTemp maxTemp : ℚ} {ys ys' : List WeatherData}
    (hp : ys.Perm ys') (k : String) :
    keyIsChill minTemp maxTemp ys k = keyIsChill minTemp maxTemp ys' k := by
  rw [keyIsChill, keyIsChill, keyCount, keyCount, keyInRangeCount,
    keyInRangeCount, hp.countP_eq, hp.countP_eq]

theorem getLastD_mem_of_ne_nil {α : Type} :
    ∀ (l : List α), l ≠ [] → ∀ d, l.getLastD d ∈ l := by
  intro l
  induction l with
  | nil => intro h; exact absurd rfl h
  | cons a as ih =>
    intro _ d
    rw [List.getLastD_cons]
    by_cases has : as = []
    · subst has; simp
    · exact List.mem_cons_of_mem a (ih has a)

/-- C7: the aggregator is permutation-invariant — `calculateChillHours`
returns identical reports (all fields, including the period label) on any
two lists that are permutations of each other. -/
theorem calculateChillHours_perm_invariant (minTemp maxTemp : ℚ)
    (l l' : List WeatherData) (hp : l.Perm l') :
    calculateChillHours minTemp maxTemp l =
      calculateChillHours minTemp maxTemp l' := by
  rw [calculateChillHours_eq, calculateChillHours_eq]
  by_cases hl : l = []
  · subst hl
    have hl' : l' = [] := hp.symm.eq_nil
    subst hl'
    rfl
  · have hl' : l' ≠ [] := fun h => hl (by rw [h] at hp; exact hp.eq_nil)
    have hAB : (sortDataChronologically l).Perm (sortDataChronologically l') :=
      ((sortDataChronologically_perm l).trans hp).trans
        (sortDataChronologically_perm l').symm
    have hAne : sortDataChronologically l ≠ [] := by
      intro h
      apply hl
      have hperm := sortDataChronologically_perm l
      rw [h] at hperm
      exact hperm.symm.eq_nil
    have hBne : sortDataChronologically l' ≠ [] := by
      intro h
      apply hl'
      have hperm := sortDataChronologically_perm l'
      rw [h] at hperm
      exact hperm.symm.eq_nil
    rw [if_neg (by simpa [List.isEmpty_iff] using hAne),
      if_neg (by simpa [List.isEmpty_iff] using hBne)]
    have hkeys := group_keys_perm minTemp maxTemp hAB
    have htot : (groupReadingsByHour minTemp maxTemp
        (sortDataChronologically l)).length =
        (groupReadingsByHour minTemp maxTemp
          (sortDataChronologically l')).length := by
      have := hkeys.length_eq
      simpa [List.length_map] using this
    have hchill : ((groupReadingsByHour minTemp maxTemp
        (sortDataChronologically l)).countP fun e => isChillHour e.2) =
        ((groupReadingsByHour minTemp maxTemp
          (sortDataChronologically l')).countP fun e => isChillHour e.2) := by
      rw [group_countP_chill, group_countP_chill]
      rw [List.countP_congr fun k _ => by
        rw [keyIsChill_perm hAB k]]
      exact hkeys.countP_eq _
    have hhead : ((sortDataChronologically l).headD ⟨0, 0⟩).dateutc =
        ((sortDataChronologically l').headD ⟨0, 0⟩).dateutc := by
      obtain ⟨a, as, hA⟩ := List.exists_cons_of_ne_nil hAne
      obtain ⟨b, bs, hB⟩ := List.exists_cons_of_ne_nil hBne
      have hmemA : (sortDataChronologically l').headD ⟨0, 0⟩ ∈
          sortDataChronologically l := by
        rw [hAB.mem_iff, hB]
        simp [List.headD_cons]
      have hmemB : (sortDataChronologically l).headD ⟨0, 0⟩ ∈
          sortDataChronologically l' := by
        rw [← hAB.mem_iff, hA]
        simp [List.headD_cons]
      exact le_antisymm
        (sorted_headD_min (sortDataChronologically_pairwise l) hmemA)
        (sorted_headD_min (sortDataChronologically_pairwise l') hmemB)
    have hlast : ((sortDataChronologically l).getLastD ⟨0, 0⟩).dateutc =
        ((sortDataChronologically l').getLastD ⟨0, 0⟩).dateutc := by
      have hmemA : (sortDataChronologically l).getLastD ⟨0, 0⟩ ∈
          sortDataChronologically l' :=
        hAB.mem_iff.mp (getLastD_mem_of_ne_nil _ hAne _)
      have hmemB : (sortDataChronologically l').getLastD ⟨0, 0⟩ ∈
          sortDataChronologically l :=
        hAB.mem_iff.mpr (getLastD_mem_of_ne_nil _ hBne _)
      exact le_antisymm
        (sorted_getLastD_max (sortDataChronologically l')
          (⟨0, 0⟩ : WeatherData) (sortDataChronologically_pairwise l')
          ((sortDataChronologically l).getLastD ⟨0, 0⟩) hmemA)
        (sorted_getLastD_max (sortDataChronologically l)
          (⟨0, 0⟩ : WeatherData) (sortDataChronologically_pairwise l)
          ((sortDataChronologically l').getLastD ⟨0, 0⟩) hmemB)
    simp only [createReport]
    rw [htot, hchill, hhead, hlast]

/-- Witness for C7 at a concrete transposition: the report for two samples
is unchanged when they are swapped. -/
theorem calculateChillHours_perm_invariant_witness :
    calculateChillHours 32 45 [⟨0, 35⟩, ⟨60000, 50⟩] =
      calculateChillHours 32 45 [⟨60000, 50⟩, ⟨0, 35⟩] :=
  calculateChillHours_perm_invariant 32 45 _ _
    (List.Perm.swap (⟨60000, 50⟩ : WeatherData) (⟨0, 35⟩ : WeatherData) [])

end ChillHourCalculator

/-
The aggregator never mutates its input array (claim C10).
-/

namespace JsHeap

theorem readArr_append_left {st : Store} {v : List WeatherData} {j : Nat}
    (h : j < st.length) : readArr (st ++ [v]) j = readArr st j := by
  unfold readArr
  exact List.getD_append st [v] [] j h

theorem readArr_set_ne {st : Store} {v : List WeatherData} {i j : Nat}
    (h : i ≠ j) : readArr (writeArr st i v) j = readArr st j := by
  unfold readArr writeArr
  rw [List.getD_eq_getElem?_getD, List.getD_eq_getElem?_getD,
    List.getElem?_set_ne h]

theorem calculateChillHoursSt_store (minTemp maxTemp : ℚ) (st : Store)
    (r : Nat) :
    (calculateChillHoursSt minTemp maxTemp st r).2 =
      (sortDataChronologicallySt st r).1 := by
  simp [calculateChillHoursSt, apply_ite Prod.snd]

theorem calculateChillHoursSt_frame (minTemp maxTemp : ℚ) (st : Store)
    (r j : Nat) (h : j < st.length) :
    readArr (calculateChillHoursSt minTemp maxTemp st r).2 j = readArr st j := by
  rw [calculateChillHoursSt_store]
  show readArr (writeArr (st ++ [readArr st r]) st.length _) j = _
  rw [readArr_set_ne (by omega)]
  exact readArr_append_left h

/-- C10: the aggregator never mutates its input array: after running
`calculateChillHours` or `calculateSeasonChillHours` under the array-store
semantics — where `[...data]` copies, the copy is sorted in place, and
season filtering allocates a new array — the caller's array is unchanged
(same buffer: same length, elements and order). -/
theorem aggregator_never_mutates_input (minTemp maxTemp : ℚ)
    (st : Store) (r : Nat) (seasonStartMonth year : Int)
    (h : r < st.length) :
    readArr (calculateChillHoursSt minTemp maxTemp st r).2 r = readArr st r ∧
    readArr (calculateSeasonChillHoursSt minTemp maxTemp st r
      seasonStartMonth year).2 r = readArr st r := by
  constructor
  · exact calculateChillHoursSt_frame minTemp maxTemp st r r h
  · simp only [calculateSeasonChillHoursSt]
    split
    · show readArr (st ++ [_]) r = _
      exact readArr_append_left h
    · show readArr (calculateChillHoursSt minTemp maxTemp (st ++ [_])
        (st.length)).2 r = _
      rw [calculateChillHoursSt_frame minTemp maxTemp _ _ r
        (by rw [List.length_append]; omega)]
      exact readArr_append_left h

/-- Witness for C10 at a concrete one-array store. -/
theorem aggregator_never_mutates_input_witness :
    readArr (calculateChillHoursSt 32 45 [[⟨0, 35⟩]] 0).2 0 =
      readArr [[⟨0, 35⟩]] 0 ∧
    readArr (calculateSeasonChillHoursSt 32 45 [[⟨0, 35⟩]] 0 9 2023).2 0 =
      readArr [[⟨0, 35⟩]] 0 :=
  aggregator_never_mutates_input 32 45 [[⟨0, 35⟩]] 0 9 2023 (by decide)

end JsHeap
